import Mathlib

set_option maxRecDepth 10000

/-!
Shallow embedding of the TinyG 330.19 G-code parser
(src/firmware/tinyg_330.19/gcode_parser.c).

Conventions of the embedding:

* A line of input is a list of character codes (`List Nat`); the C NUL
  terminator is modelled by the end of the list (an embedded 0 also
  terminates processing, as it would in C).  The claims only concern
  7-bit ASCII input.
* C `double` values produced by the statement reader are exact decimal
  numbers, modelled by `CDouble` (integer mantissa `m` and power-of-ten
  exponent `e`, denoting m / 10^e).  The parser performs no floating
  arithmetic on them other than truncation toward zero and subtracting
  the truncated part, and on the decimal inputs at issue those
  operations agree exactly with IEEE doubles.
* The canonical-machine primitives live in canonical_machine.c, which is
  not part of the sources; calls to them are recorded as a trace of
  `CMCall` events, and an environment `env : CMCall -> Status` supplies
  the status each call returns, exactly as the C return values are used.
* The values read from the canonical machine at the start of a parse
  (cm_get_next_action, cm_get_motion_mode, cm_get_absolute_mode,
  cm_get_position) are supplied by a `CMState`.
* The message forwarding of MSG comments (`cm_message`, called during
  normalization with the raw comment text) is recorded in the call trace;
  its status is discarded by the C code.  `cm.linecount` and `cm.linenum`
  are counters with no effect on the block model or any status and are
  not modelled.
-/

/-! ### Status codes and canonical-machine enumerations

Modelled from the spec: tinyg.h and canonical_machine.h are not among the
sources; section 6 of the spec lists the status codes (OK, NOOP, COMPLETE,
EXPECTED_COMMAND_LETTER, BAD_NUMBER_FORMAT, UNRECOGNIZED_COMMAND,
INTERNAL_ERROR, ...) and section 3 lists the modal enumerations.  The
zero-valued member of each enumeration (the value left by zeroing the
model struct) is taken to be the listed default; no claim depends on the
numeric encoding of the enumerations.
-/

/-- Modelled from the spec: the parser-visible status codes of section 6.
tg_internal_error is used only for exhaustion of the recursion fuel of the
statement loop, which no terminating C execution reaches. -/
inductive Status
  | tg_ok
  | tg_noop
  | tg_complete
  | tg_expected_command_letter
  | tg_bad_number_format
  | tg_unrecognized_command
  | tg_internal_error
  deriving DecidableEq, Repr

/-- Modelled from the spec: next_action values (NONE is the zeroed default). -/
inductive NextAction
  | none
  | motion
  | dwell
  | return_to_home
  | homing_cycle
  | offset_coordinates
  deriving DecidableEq, Repr

/-- Modelled from the spec: motion mode values (G modal group 1). -/
inductive MotionMode
  | cancel_motion_mode
  | straight_traverse
  | straight_feed
  | cw_arc
  | ccw_arc
  deriving DecidableEq, Repr

/-- Modelled from the spec: plane selection values. -/
inductive CanonPlane
  | xy
  | xz
  | yz
  deriving DecidableEq, Repr

/-- Modelled from the spec: path control modes. -/
inductive PathControl
  | exact_path
  | exact_stop
  | continuous
  deriving DecidableEq, Repr

/-- Modelled from the spec: program flow values. -/
inductive ProgramFlow
  | running
  | paused
  | completed
  deriving DecidableEq, Repr

/-- Modelled from the spec: spindle mode values. -/
inductive SpindleMode
  | off
  | cw
  | ccw
  deriving DecidableEq, Repr

/-! ### Exact decimal model of the parsed double values -/

/-- Exact decimal number m / 10^e standing in for a C double built by
read_double from a decimal literal. -/
structure CDouble where
  m : Int
  e : Nat
  deriving DecidableEq, Repr

/-- C truncation toward zero of a CDouble, as performed by trunc() and by
casting a double to an integer type. -/
def CDouble.trunc (d : CDouble) : Int :=
  if d.m < 0 then -(((-d.m).toNat / 10 ^ d.e : Nat) : Int)
  else ((d.m.toNat / 10 ^ d.e : Nat) : Int)

/-- Subtraction of the truncated integer part, producing the fraction
(value - trunc(value)) computed by _get_next_statement. -/
def CDouble.fracPart (d : CDouble) : CDouble :=
  { m := d.m - d.trunc * (10 ^ d.e : Int), e := d.e }

/-- The C cast (uint8_t)v of a nonnegative double: truncate toward zero and
reduce modulo 256.  A negative double has no defined uint8_t conversion in C;
the model truncates to 0 via Int.toNat, and no claim depends on that case. -/
def uint8OfDouble (d : CDouble) : Nat := d.trunc.toNat % 256

/-- Negation, applied by read_double when the value has a leading minus. -/
def CDouble.negate (d : CDouble) : CDouble := { d with m := -d.m }

/-! ### Character classes and block normalization
(_gc_normalize_gcode_block, gcode_parser.c lines 130-177) -/

/-- ASCII toupper as applied by the normalization loop. -/
def toupperC (c : Nat) : Nat := if 97 ≤ c ∧ c ≤ 122 then c - 32 else c

/-- ASCII isupper. -/
def isUpperC (c : Nat) : Bool := decide (65 ≤ c ∧ c ≤ 90)

/-- ASCII isdigit. -/
def isDigitC (c : Nat) : Bool := decide (48 ≤ c ∧ c ≤ 57)

/-- Characters discarded by normalization, from the C string literal listing
exclamation, dollar, percent, comma, semicolon, colon, question mark, at sign,
caret, underscore, tilde, backquote, apostrophe and double quote. -/
def tossList : List Nat := [33, 36, 37, 44, 59, 58, 63, 64, 94, 95, 126, 96, 39, 34]

/-- One pass of the normalization loop body for one input character c0:
none means the loop stops here (NUL terminator, or an opening parenthesis
starting a comment that terminates the command); some none means the
character is dropped; some (some k) means k is appended to the normalized
command.  The tests appear in the order of the C loop: uppercase and digit
capture, comment detection, control and whitespace discard, DEL discard,
invalid punctuation discard, then capture. -/
def normStep (c0 : Nat) : Option (Option Nat) :=
  if c0 = 0 then none
  else if isUpperC (toupperC c0) || isDigitC (toupperC c0) then some (some (toupperC c0))
  else if toupperC c0 = 40 then none
  else if toupperC c0 ≤ 32 then some none
  else if toupperC c0 = 127 then some none
  else if decide (toupperC c0 ∈ tossList) then some none
  else some (some (toupperC c0))

/-- The normalization loop: the normalized command portion of the block
together with the comment, if any.  When the loop stops at an opening
parenthesis, the C code sets the comment pointer to the character after it
(the raw, untouched remainder of the line); at the NUL terminator there is
no comment. -/
def normalizeLoop : List Nat → List Nat × Option (List Nat)
  | [] => ([], Option.none)
  | c :: rest =>
    match normStep c with
    | Option.none => if c = 0 then ([], Option.none) else ([], Option.some rest)
    | Option.some Option.none => normalizeLoop rest
    | Option.some (Option.some k) =>
      (k :: (normalizeLoop rest).1, (normalizeLoop rest).2)

/-- The MSG scan over a comment (gcode_parser.c lines 162-174): when the
first three raw comment characters are M S G after toupper (reading stops
early at the terminator, whose toupper is 0), the comment is truncated at
its first closing parenthesis (or terminator) and the text after the
three-character specifier is forwarded to cm_message.  Returns the
forwarded text, or none when no message is sent. -/
def msgOfComment (comment : List Nat) : Option (List Nat) :=
  if toupperC (comment.getD 0 0) = 77 ∧ toupperC (comment.getD 1 0) = 83 ∧
      toupperC (comment.getD 2 0) = 71 then
    Option.some ((comment.takeWhile (fun c => decide (c ≠ 41) && decide (c ≠ 0))).drop 3)
  else Option.none

/-- Normalization of a block (_gc_normalize_gcode_block): a leading slash
(47) deletes the block, a leading question mark (63) returns the block
untouched (no comment processing happens on either early return), and
otherwise the normalization loop rewrites the command in place and the MSG
scan runs on the comment.  Returns the normalized command portion together
with the cm_message text, if one is forwarded. -/
def _gc_normalize_gcode_block (block : List Nat) : List Nat × Option (List Nat) :=
  match block with
  | [] => ([], Option.none)
  | c :: rest =>
    if c = 47 then ([], Option.none)
    else if c = 63 then (c :: rest, Option.none)
    else ((normalizeLoop (c :: rest)).1,
          match (normalizeLoop (c :: rest)).2 with
          | Option.none => Option.none
          | Option.some comment => msgOfComment comment)



/-! ### read_double

Modelled from the spec: read_double lives in util.c, which is not among the
sources.  The spec (section 4.1, statement extraction) says each statement is
one uppercase letter followed by a signed decimal value, the fractional part
being retained separately; read_double is the strtod-based reader that
consumes an optional sign, integer digits, and an optional decimal point with
fraction digits, failing (and leaving the index unchanged) when no digits are
consumed. -/

/-- Longest prefix of decimal digit characters. -/
def takeDigits : List Nat → List Nat
  | [] => []
  | c :: rest => if isDigitC c then c :: takeDigits rest else []

/-- Numeric value of a string of digit characters. -/
def digitsVal (ds : List Nat) : Nat := ds.foldl (fun a c => 10 * a + (c - 48)) 0

/-- Modelled from the spec: read_double at index i of buf.  Returns the
value as an exact decimal together with the index just past the number, or
none when no number could be read. -/
def read_double (buf : List Nat) (i : Nat) : Option (CDouble × Nat) :=
  let s := buf.drop i
  let sgned := s.head? = some 45
  let n1 := if s.head? = some 45 ∨ s.head? = some 43 then 1 else 0
  let s1 := s.drop n1
  let d1 := takeDigits s1
  let s2 := s1.drop d1.length
  let core :=
    match s2 with
    | 46 :: rest =>
      let d2 := takeDigits rest
      if d1.length = 0 ∧ d2.length = 0 then none
      else some (CDouble.mk (digitsVal d1 * 10 ^ d2.length + digitsVal d2) d2.length,
                 i + n1 + d1.length + 1 + d2.length)
    | _ =>
      if d1.length = 0 then none
      else some (CDouble.mk (digitsVal d1) 0, i + n1 + d1.length)
  match core with
  | none => none
  | some (v, j) => some (if sgned then v.negate else v, j)








/-! ### The next-block model and its presence flags
(struct GCodeModel gn and gf; gcode_parser.c uses six axes X Y Z A B C
indexed 0..5 and three arc offsets I J K indexed 0..2) -/

/-- The next-block model gn.  Fields are exactly the ones the parser file
reads or writes. -/
structure GCodeModel where
  next_action : NextAction
  motion_mode : MotionMode
  target : Fin 6 → CDouble
  feed_rate : CDouble
  inverse_feed_rate_mode : Bool
  select_plane : CanonPlane
  inches_mode : Bool
  absolute_mode : Bool
  absolute_override : Bool
  path_control : PathControl
  program_flow : ProgramFlow
  spindle_mode : SpindleMode
  spindle_speed : CDouble
  tool : Nat
  change_tool : Bool
  set_origin_mode : Bool
  dwell_time : CDouble
  arc_offset : Fin 3 → CDouble
  arc_radius : CDouble
  deriving DecidableEq, Repr

/-- The presence-flag structure gf.  In the C source gf has the same type
as gn and each flag is a double holding 0 or 1; a flag is read either as
(int)gf.v != 0 or as gf.target[i] < EPSILON, where EPSILON is a small
positive constant below 1 (util.h, not among the sources), so both reads
are exactly tests of a boolean. -/
structure GCodeFlags where
  next_action : Bool
  motion_mode : Bool
  target : Fin 6 → Bool
  feed_rate : Bool
  inverse_feed_rate_mode : Bool
  select_plane : Bool
  inches_mode : Bool
  absolute_mode : Bool
  absolute_override : Bool
  path_control : Bool
  program_flow : Bool
  spindle_mode : Bool
  spindle_speed : Bool
  tool : Bool
  change_tool : Bool
  set_origin_mode : Bool
  dwell_time : Bool
  arc_offset : Fin 3 → Bool
  arc_radius : Bool
  deriving DecidableEq, Repr

/-- The zeroed next-block model produced by ZERO_MODEL_STATE(gn): every
number 0, every flag false, every enumeration at its zero-valued member. -/
def gnZero : GCodeModel where
  next_action := NextAction.none
  motion_mode := MotionMode.cancel_motion_mode
  target := fun _ => CDouble.mk 0 0
  feed_rate := CDouble.mk 0 0
  inverse_feed_rate_mode := false
  select_plane := CanonPlane.xy
  inches_mode := false
  absolute_mode := false
  absolute_override := false
  path_control := PathControl.exact_path
  program_flow := ProgramFlow.running
  spindle_mode := SpindleMode.off
  spindle_speed := CDouble.mk 0 0
  tool := 0
  change_tool := false
  set_origin_mode := false
  dwell_time := CDouble.mk 0 0
  arc_offset := fun _ => CDouble.mk 0 0
  arc_radius := CDouble.mk 0 0

/-- The zeroed flag structure produced by ZERO_MODEL_STATE(gf). -/
def gfZero : GCodeFlags where
  next_action := false
  motion_mode := false
  target := fun _ => false
  feed_rate := false
  inverse_feed_rate_mode := false
  select_plane := false
  inches_mode := false
  absolute_mode := false
  absolute_override := false
  path_control := false
  program_flow := false
  spindle_mode := false
  spindle_speed := false
  tool := false
  change_tool := false
  set_origin_mode := false
  dwell_time := false
  arc_offset := fun _ => false
  arc_radius := false

/-- The canonical-machine state the parser reads at the start of a block:
cm_get_next_action, cm_get_motion_mode, cm_get_absolute_mode and
cm_get_position. -/
structure CMState where
  next_action : NextAction
  motion_mode : MotionMode
  absolute_mode : Bool
  position : Fin 6 → CDouble
  deriving DecidableEq, Repr

/-- One canonical-machine call made by the parser or the execute routine,
with the arguments passed to it.  The implementations live in
canonical_machine.c, outside the sources; the model records the calls in
order. -/
inductive CMCall
  | message (text : List Nat)
  | set_absolute_override (b : Bool)
  | set_inverse_feed_rate_mode (b : Bool)
  | set_feed_rate (v : CDouble)
  | set_spindle_speed (v : CDouble)
  | select_tool (t : Nat)
  | change_tool (t : Nat)
  | start_spindle_clockwise
  | start_spindle_counterclockwise
  | stop_spindle_turning
  | dwell (t : CDouble)
  | select_plane (p : CanonPlane)
  | set_inches_mode (b : Bool)
  | set_absolute_mode (b : Bool)
  | return_to_home
  | homing_cycle
  | set_origin_offsets (t : Fin 6 → CDouble)
  | straight_traverse (t : Fin 6 → CDouble)
  | straight_feed (t : Fin 6 → CDouble)
  | arc_feed (t : Fin 6 → CDouble) (i j k : CDouble) (r : CDouble) (mode : MotionMode)
  deriving DecidableEq, Repr

/-! ### Reading one statement
(_get_next_statement, gcode_parser.c lines 187-201) -/

/-- One statement read: at index i the buffer must hold an uppercase letter
followed by a number.  Returns the letter, the value, the fraction
(value - trunc(value)) and the index past the statement; or the status the
C function returns when there is no statement (TG_COMPLETE at the NUL
terminator, TG_EXPECTED_COMMAND_LETTER on a non-uppercase character,
TG_BAD_NUMBER_FORMAT when read_double fails). -/
def _get_next_statement (buf : List Nat) (i : Nat) :
    Except Status (Nat × CDouble × CDouble × Nat) :=
  match buf[i]? with
  | Option.none => Except.error Status.tg_complete
  | Option.some 0 => Except.error Status.tg_complete
  | Option.some letter =>
    if isUpperC letter then
      match read_double buf (i + 1) with
      | Option.none => Except.error Status.tg_bad_number_format
      | Option.some (v, i2) => Except.ok (letter, v, v.fracPart, i2)
    else Except.error Status.tg_expected_command_letter

/-! ### The statement switch
(the switch(letter) body of _gc_parse_gcode_block, lines 234-302).
SET_NEXT_STATE(a,v) sets gn.a to v and flags gf.a;
SET_NEXT_ACTION_MOTION additionally sets next_action to MOTION with its
flag; SET_NEXT_ACTION_OFFSET additionally sets next_action to
OFFSET_COORDINATES with its flag.  The letter is compared against ASCII
codes: G 71, M 77, T 84, F 70, P 80, S 83, X 88, Y 89, Z 90, A 65, B 66,
C 67, I 73, J 74, K 75, R 82, N 78. -/

/-- Dispatch on one parsed statement.  Returns the status together with the
updated model and flags.  The N word stores the line number in cm.linenum
(not modelled) and sets nothing in gn or gf. -/
def stmtSwitch (letter : Nat) (value : CDouble) (gn : GCodeModel) (gf : GCodeFlags) :
    Status × GCodeModel × GCodeFlags :=
  if letter = 71 then
    match uint8OfDouble value with
    | 0 => (Status.tg_ok,
        { gn with motion_mode := MotionMode.straight_traverse, next_action := NextAction.motion },
        { gf with motion_mode := true, next_action := true })
    | 1 => (Status.tg_ok,
        { gn with motion_mode := MotionMode.straight_feed, next_action := NextAction.motion },
        { gf with motion_mode := true, next_action := true })
    | 2 => (Status.tg_ok,
        { gn with motion_mode := MotionMode.cw_arc, next_action := NextAction.motion },
        { gf with motion_mode := true, next_action := true })
    | 3 => (Status.tg_ok,
        { gn with motion_mode := MotionMode.ccw_arc, next_action := NextAction.motion },
        { gf with motion_mode := true, next_action := true })
    | 4 => (Status.tg_ok, { gn with next_action := NextAction.dwell },
        { gf with next_action := true })
    | 17 => (Status.tg_ok, { gn with select_plane := CanonPlane.xy },
        { gf with select_plane := true })
    | 18 => (Status.tg_ok, { gn with select_plane := CanonPlane.xz },
        { gf with select_plane := true })
    | 19 => (Status.tg_ok, { gn with select_plane := CanonPlane.yz },
        { gf with select_plane := true })
    | 20 => (Status.tg_ok, { gn with inches_mode := true }, { gf with inches_mode := true })
    | 21 => (Status.tg_ok, { gn with inches_mode := false }, { gf with inches_mode := true })
    | 28 => (Status.tg_ok, { gn with next_action := NextAction.return_to_home },
        { gf with next_action := true })
    | 30 => (Status.tg_ok, { gn with next_action := NextAction.homing_cycle },
        { gf with next_action := true })
    | 53 => (Status.tg_ok, { gn with absolute_override := true },
        { gf with absolute_override := true })
    | 61 => (Status.tg_ok, { gn with path_control := PathControl.exact_path },
        { gf with path_control := true })
    | 64 => (Status.tg_ok, { gn with path_control := PathControl.continuous },
        { gf with path_control := true })
    | 80 => (Status.tg_ok, { gn with motion_mode := MotionMode.cancel_motion_mode },
        { gf with motion_mode := true })
    | 90 => (Status.tg_ok, { gn with absolute_mode := true }, { gf with absolute_mode := true })
    | 91 => (Status.tg_ok, { gn with absolute_mode := false }, { gf with absolute_mode := true })
    | 92 => (Status.tg_ok,
        { gn with set_origin_mode := true, next_action := NextAction.offset_coordinates },
        { gf with set_origin_mode := true, next_action := true })
    | 93 => (Status.tg_ok, { gn with inverse_feed_rate_mode := true },
        { gf with inverse_feed_rate_mode := true })
    | 94 => (Status.tg_ok, { gn with inverse_feed_rate_mode := false },
        { gf with inverse_feed_rate_mode := true })
    | 40 => (Status.tg_ok, gn, gf)
    | 49 => (Status.tg_ok, gn, gf)
    | _ => (Status.tg_unrecognized_command, gn, gf)
  else if letter = 77 then
    match uint8OfDouble value with
    | 0 => (Status.tg_ok, { gn with program_flow := ProgramFlow.paused },
        { gf with program_flow := true })
    | 1 => (Status.tg_ok, { gn with program_flow := ProgramFlow.paused },
        { gf with program_flow := true })
    | 2 => (Status.tg_ok, { gn with program_flow := ProgramFlow.completed },
        { gf with program_flow := true })
    | 30 => (Status.tg_ok, { gn with program_flow := ProgramFlow.completed },
        { gf with program_flow := true })
    | 60 => (Status.tg_ok, { gn with program_flow := ProgramFlow.completed },
        { gf with program_flow := true })
    | 3 => (Status.tg_ok, { gn with spindle_mode := SpindleMode.cw },
        { gf with spindle_mode := true })
    | 4 => (Status.tg_ok, { gn with spindle_mode := SpindleMode.ccw },
        { gf with spindle_mode := true })
    | 5 => (Status.tg_ok, { gn with spindle_mode := SpindleMode.off },
        { gf with spindle_mode := true })
    | 6 => (Status.tg_ok, { gn with change_tool := true }, { gf with change_tool := true })
    | 7 => (Status.tg_ok, gn, gf)
    | 8 => (Status.tg_ok, gn, gf)
    | 9 => (Status.tg_ok, gn, gf)
    | 48 => (Status.tg_ok, gn, gf)
    | 49 => (Status.tg_ok, gn, gf)
    | _ => (Status.tg_unrecognized_command, gn, gf)
  else if letter = 84 then
    (Status.tg_ok, { gn with tool := uint8OfDouble value }, { gf with tool := true })
  else if letter = 70 then
    (Status.tg_ok, { gn with feed_rate := value }, { gf with feed_rate := true })
  else if letter = 80 then
    (Status.tg_ok, { gn with dwell_time := value }, { gf with dwell_time := true })
  else if letter = 83 then
    (Status.tg_ok, { gn with spindle_speed := value }, { gf with spindle_speed := true })
  else if letter = 88 then
    (Status.tg_ok, { gn with target := Function.update gn.target 0 value },
        { gf with target := Function.update gf.target 0 true })
  else if letter = 89 then
    (Status.tg_ok, { gn with target := Function.update gn.target 1 value },
        { gf with target := Function.update gf.target 1 true })
  else if letter = 90 then
    (Status.tg_ok, { gn with target := Function.update gn.target 2 value },
        { gf with target := Function.update gf.target 2 true })
  else if letter = 65 then
    (Status.tg_ok, { gn with target := Function.update gn.target 3 value },
        { gf with target := Function.update gf.target 3 true })
  else if letter = 66 then
    (Status.tg_ok, { gn with target := Function.update gn.target 4 value },
        { gf with target := Function.update gf.target 4 true })
  else if letter = 67 then
    (Status.tg_ok, { gn with target := Function.update gn.target 5 value },
        { gf with target := Function.update gf.target 5 true })
  else if letter = 73 then
    (Status.tg_ok, { gn with arc_offset := Function.update gn.arc_offset 0 value },
        { gf with arc_offset := Function.update gf.arc_offset 0 true })
  else if letter = 74 then
    (Status.tg_ok, { gn with arc_offset := Function.update gn.arc_offset 1 value },
        { gf with arc_offset := Function.update gf.arc_offset 1 true })
  else if letter = 75 then
    (Status.tg_ok, { gn with arc_offset := Function.update gn.arc_offset 2 value },
        { gf with arc_offset := Function.update gf.arc_offset 2 true })
  else if letter = 82 then
    (Status.tg_ok, { gn with arc_radius := value }, { gf with arc_radius := true })
  else if letter = 78 then
    (Status.tg_ok, gn, gf)
  else
    (Status.tg_unrecognized_command, gn, gf)

/-! ### The statement loop of _gc_parse_gcode_block (lines 233-311)

After the switch, two fractional-gcode checks run: when the letter is G,
the truncated value is 61 (resp. 92) and the uint8_t cast of the fraction
is nonzero, the C code runs SET_NEXT_STATE(path_control, PATH_EXACT_STOP)
(resp. a for loop over the axes doing SET_NEXT_STATE(target[i], 0)).
Since SET_NEXT_STATE expands to a statement expression ending in break,
the first check would break out of the enclosing while loop, and in the
second the break leaves the for loop after axis 0 with the shared index
variable i reset to 0 by the for initializer, re-entering the while loop
at the start of the buffer.  Both branches are modelled exactly as
written; a fraction always lies strictly between -1 and 1, so its uint8_t
cast is 0 and neither branch can run.  Then `if (status != TG_OK) break`
ends the loop on any non-OK status.

The loop is written on fuel (decreasing recursion counter); buf.length + 1
is enough fuel for every execution that does not take the dead index-reset
branch, since each iteration consumes at least two characters. -/

/-- The statement loop.  Returns the final value of the local status
variable together with the accumulated gn and gf. -/
def parseLoop (buf : List Nat) : Nat → Nat → GCodeModel → GCodeFlags →
    Status × GCodeModel × GCodeFlags
  | 0, _, gn, gf => (Status.tg_internal_error, gn, gf)
  | fuel + 1, i, gn, gf =>
    match _get_next_statement buf i with
    | Except.error st => (st, gn, gf)
    | Except.ok (letter, value, fraction, i1) =>
      let r := stmtSwitch letter value gn gf
      let st := r.1
      let gn1 := r.2.1
      let gf1 := r.2.2
      if letter = 71 ∧ uint8OfDouble value = 61 ∧ uint8OfDouble fraction ≠ 0 then
        (st, { gn1 with path_control := PathControl.exact_stop },
         { gf1 with path_control := true })
      else if letter = 71 ∧ uint8OfDouble value = 92 ∧ uint8OfDouble fraction ≠ 0 then
        let gn2 := { gn1 with target := Function.update gn1.target 0 (CDouble.mk 0 0) }
        let gf2 := { gf1 with target := Function.update gf1.target 0 true }
        if st ≠ Status.tg_ok then (st, gn2, gf2)
        else parseLoop buf fuel 0 gn2 gf2
      else if st ≠ Status.tg_ok then (st, gn1, gf1)
      else parseLoop buf fuel i1 gn1 gf1

/-- The target fill-in loop after the statement loop (lines 314-320): in
absolute mode or under absolute override, an axis whose target flag is
unset (gf.target[i] < EPSILON with the flag double holding 0 or 1 and
0 < EPSILON < 1, hence: flag is false) receives the current model position
of that axis. -/
def targetFill (cm : CMState) (gn : GCodeModel) (gf : GCodeFlags) : GCodeModel :=
  { gn with
    target := fun i =>
      if (gn.absolute_mode = true ∨ gn.absolute_override = true) ∧ gf.target i = false
      then cm.position i else gn.target i }

/-! ### The execute routine
(_gc_execute_gcode_block, gcode_parser.c lines 359-440)

CALL_CM_FUNC(f, v): when the flag gf.v is set, call f(gn.v) and return its
status immediately if it is not TG_OK.  ritorno(f(..)) likewise returns on
a non-OK status.  The spindle calls discard their status.  The units call
(cm_set_inches_mode) and the three motion calls return unconditionally with
whatever status the callee produced. -/

/-- One conditional canonical-machine call in the CALL_CM_FUNC / ritorno
pattern: made at all only when flag holds, appended to the trace, and the
whole routine aborts with the callee status when it is not TG_OK. -/
def cmFunc (env : CMCall → Status) (flag : Bool) (c : CMCall) (tr : List CMCall) :
    Except (Status × List CMCall) (List CMCall) :=
  if flag then
    if env c = Status.tg_ok then Except.ok (tr ++ [c])
    else Except.error (env c, tr ++ [c])
  else Except.ok tr

/-- An unconditional `return f(...)` in the C routine: the call is made and
its status becomes the routine result whether or not it is TG_OK. -/
def cmReturn (env : CMCall → Status) (c : CMCall) (tr : List CMCall) :
    Except (Status × List CMCall) (List CMCall) :=
  Except.error (env c, tr ++ [c])

/-- The execute routine.  Returns the status of the block together with the
ordered trace of canonical-machine calls made. -/
def _gc_execute_gcode_block (env : CMCall → Status) (gn : GCodeModel) (gf : GCodeFlags) :
    Status × List CMCall :=
  let r : Except (Status × List CMCall) (List CMCall) := do
    let tr ← cmFunc env gf.inverse_feed_rate_mode
        (CMCall.set_inverse_feed_rate_mode gn.inverse_feed_rate_mode) []
    let tr ← cmFunc env gf.feed_rate (CMCall.set_feed_rate gn.feed_rate) tr
    let tr ← cmFunc env gf.spindle_speed (CMCall.set_spindle_speed gn.spindle_speed) tr
    let tr ← cmFunc env gf.tool (CMCall.select_tool gn.tool) tr
    let tr ← cmFunc env gf.tool (CMCall.change_tool gn.tool) tr
    let tr := if gf.spindle_mode then
        tr ++ [match gn.spindle_mode with
               | SpindleMode.cw => CMCall.start_spindle_clockwise
               | SpindleMode.ccw => CMCall.start_spindle_counterclockwise
               | SpindleMode.off => CMCall.stop_spindle_turning]
      else tr
    let tr ← if gn.next_action = NextAction.dwell then
        cmFunc env true (CMCall.dwell gn.dwell_time) tr
      else Except.ok tr
    let tr ← cmFunc env gf.select_plane (CMCall.select_plane gn.select_plane) tr
    let tr ← if gf.inches_mode then
        cmReturn env (CMCall.set_inches_mode gn.inches_mode) tr
      else Except.ok tr
    let tr ← cmFunc env gf.absolute_mode (CMCall.set_absolute_mode gn.absolute_mode) tr
    let tr ← if gn.next_action = NextAction.return_to_home then
        cmFunc env true CMCall.return_to_home tr
      else Except.ok tr
    let tr ← if gn.next_action = NextAction.homing_cycle then
        cmFunc env true CMCall.homing_cycle tr
      else Except.ok tr
    let tr ← if gn.next_action = NextAction.offset_coordinates then
        cmFunc env true (CMCall.set_origin_offsets gn.target) tr
      else Except.ok tr
    let tr ← if gn.next_action = NextAction.motion ∧
        gn.motion_mode = MotionMode.straight_traverse then
        cmReturn env (CMCall.straight_traverse gn.target) tr
      else Except.ok tr
    let tr ← if gn.next_action = NextAction.motion ∧
        gn.motion_mode = MotionMode.straight_feed then
        cmReturn env (CMCall.straight_feed gn.target) tr
      else Except.ok tr
    let tr ← if gn.next_action = NextAction.motion ∧
        (gn.motion_mode = MotionMode.cw_arc ∨ gn.motion_mode = MotionMode.ccw_arc) then
        cmReturn env (CMCall.arc_feed gn.target (gn.arc_offset 0) (gn.arc_offset 1)
          (gn.arc_offset 2) gn.arc_radius gn.motion_mode) tr
      else Except.ok tr
    pure tr
  match r with
  | Except.ok tr => (Status.tg_ok, tr)
  | Except.error e => e

/-! ### Top level (_gc_parse_gcode_block and gc_gcode_parser, lines 90-95
and 215-322) -/

/-- The preset of the zeroed gn from the canonical machine model: the next
action, the motion mode and the absolute mode persist from the previous
block. -/
def gn_preset (cm : CMState) : GCodeModel :=
  { gnZero with
    next_action := cm.next_action
    motion_mode := cm.motion_mode
    absolute_mode := cm.absolute_mode }

/-- Parse one normalized block and execute it.  Returns the status returned
by the C function, the trace of canonical-machine calls (the per-block
cm_set_absolute_override(FALSE) first), and the final gn and gf.  Note the
status of the statement loop is dropped on the floor by the C code: the
function returns _gc_execute_gcode_block() unconditionally. -/
def _gc_parse_gcode_block (env : CMCall → Status) (cm : CMState) (buf : List Nat) :
    Status × List CMCall × GCodeModel × GCodeFlags :=
  let pr := parseLoop buf (buf.length + 1) 0 (gn_preset cm) gfZero
  let gn := targetFill cm pr.2.1 pr.2.2
  let er := _gc_execute_gcode_block env gn pr.2.2
  (er.1, CMCall.set_absolute_override false :: er.2, gn, pr.2.2)

/-- Top level of the parser (gc_gcode_parser): normalize the block (which
forwards an MSG comment to cm_message, recorded first in the trace even
when the command is empty), ignore the block when the normalized command is
empty (TG_NOOP, model untouched), otherwise parse and execute.  The third
component is the resulting (gn, gf) pair, none when the block was
ignored. -/
def gc_gcode_parser_top (env : CMCall → Status) (cm : CMState) (block : List Nat) :
    Status × List CMCall × Option (GCodeModel × GCodeFlags) :=
  let nr := _gc_normalize_gcode_block block
  let msgs : List CMCall :=
    match nr.2 with
    | Option.none => []
    | Option.some text => [CMCall.message text]
  if nr.1 = [] then (Status.tg_noop, msgs, Option.none)
  else
    let r := _gc_parse_gcode_block env cm nr.1
    (r.1, msgs ++ r.2.1, Option.some (r.2.2.1, r.2.2.2))

/-- Canonical-machine state with everything at its default: no pending
action, motion mode cancelled, incremental (non-absolute) mode, position at
the origin. -/
def cmDefault : CMState where
  next_action := NextAction.none
  motion_mode := MotionMode.cancel_motion_mode
  absolute_mode := false
  position := fun _ => CDouble.mk 0 0

/-- Canonical-machine state in absolute mode with every axis at position 7,
used to exhibit the G92.1 behavior. -/
def cmAbs7 : CMState where
  next_action := NextAction.none
  motion_mode := MotionMode.cancel_motion_mode
  absolute_mode := true
  position := fun _ => CDouble.mk 7 0

/-- The environment in which every canonical-machine call reports TG_OK. -/
def envOK : CMCall → Status := fun _ => Status.tg_ok

/-! ### Whitespace and case folding (for claims C5 and C6) -/

/-- Whitespace in the sense of claim C6: the space and tab characters. -/
def wsC (c : Nat) : Bool := decide (c = 32) || decide (c = 9)

/-- Modelled from the spec (claim C6): two lines differ only in letter case
and in inserted or removed whitespace exactly when their case-folded,
whitespace-stripped forms coincide.  stripFold computes that form. -/
def stripFold : List Nat → List Nat
  | [] => []
  | c :: rest => if wsC c then stripFold rest else toupperC c :: stripFold rest

/-- Modelled from the spec (amended claim C5): the characters the
normalization loop retains in the command portion are, after uppercasing,
the digits, the uppercase letters, and the punctuation characters
numbered 35 43 45 46 47 42 60 61 62 124 41 91 93 123 125 38 92, that is
hash plus minus dot slash star less equal greater bar close-paren brackets
braces ampersand backslash.  The percent character 37 is not among them. -/
def retainedChar (c : Nat) : Bool :=
  isUpperC c || isDigitC c ||
    decide (c ∈ [35, 38, 41, 42, 43, 45, 46, 47, 60, 61, 62, 91, 92, 93, 123, 124, 125])

lemma toupperC_toupperC (c : Nat) : toupperC (toupperC c) = toupperC c := by
  unfold toupperC
  split_ifs <;> omega

lemma toupperC_ne_zero (c : Nat) (h : c ≠ 0) : toupperC c ≠ 0 := by
  unfold toupperC
  split_ifs <;> omega

lemma normStep_toupperC (c : Nat) : normStep (toupperC c) = normStep c := by
  by_cases h : c = 0
  · subst h
    decide
  · unfold normStep
    rw [if_neg (toupperC_ne_zero c h), if_neg h, toupperC_toupperC]

lemma normStep_ws (c : Nat) (h : wsC c = true) : normStep c = some none := by
  have h2 : c = 32 ∨ c = 9 := by simpa [wsC] using h
  rcases h2 with h2 | h2 <;> subst h2 <;> decide

lemma normalizeLoop_cons (c : Nat) (rest : List Nat) :
    normalizeLoop (c :: rest) =
      match normStep c with
      | Option.none => if c = 0 then ([], Option.none) else ([], Option.some rest)
      | Option.some Option.none => normalizeLoop rest
      | Option.some (Option.some k) =>
        (k :: (normalizeLoop rest).1, (normalizeLoop rest).2) := rfl

/-- The normalized command portion is blind to case folding and whitespace
stripping: the first component of the loop output on the stripped and
folded line is the first component of the output on the line itself.  (The
comment component is not invariant: it is the raw remainder of the line.) -/
lemma normalizeLoop_fst_stripFold (l : List Nat) :
    (normalizeLoop (stripFold l)).1 = (normalizeLoop l).1 := by
  induction l with
  | nil => rfl
  | cons c rest ih =>
    by_cases hw : wsC c = true
    · have e0 : stripFold (c :: rest) = stripFold rest := by simp [stripFold, hw]
      rw [e0, ih, normalizeLoop_cons, normStep_ws c hw]
    · have e0 : stripFold (c :: rest) = toupperC c :: stripFold rest := by
        simp [stripFold, hw]
      rw [e0, normalizeLoop_cons, normStep_toupperC, normalizeLoop_cons c rest]
      cases hst : normStep c with
      | none => split_ifs <;> rfl
      | some o =>
        cases o with
        | none => simpa using ih
        | some k => simpa using ih

/-- On a block whose raw first character is neither the block-delete slash
nor the status-report question mark, the normalized command portion is
exactly the first component of the normalization loop. -/
lemma normalize_fst_eq_loop (l : List Nat) (h47 : l.head? ≠ some 47)
    (h63 : l.head? ≠ some 63) :
    (_gc_normalize_gcode_block l).1 = (normalizeLoop l).1 := by
  cases l with
  | nil => rfl
  | cons c t =>
    have hc47 : c ≠ 47 := by
      intro h
      exact h47 (by simp [h])
    have hc63 : c ≠ 63 := by
      intro h
      exact h63 (by simp [h])
    show ((if c = 47 then (([], Option.none) : List Nat × Option (List Nat))
        else if c = 63 then (c :: t, Option.none)
        else ((normalizeLoop (c :: t)).1,
          match (normalizeLoop (c :: t)).2 with
          | Option.none => Option.none
          | Option.some comment => msgOfComment comment))).1 = _
    rw [if_neg hc47, if_neg hc63]

/-! ### Claim theorems -/

/-- C1.  The claim says a block containing an unrecognized letter/value
statement makes parsing return UNRECOGNIZED_COMMAND with no
canonical-machine action invoked.  On the block F100G5 (G5 is an
unsupported code) the statement loop does end with
TG_UNRECOGNIZED_COMMAND, but _gc_parse_gcode_block drops that status and
unconditionally runs the execute routine, which calls
cm_set_feed_rate(100) and makes the parser return TG_OK. -/
theorem C1_unrecognized_code_block_still_executes :
    (parseLoop [70, 49, 48, 48, 71, 53] 7 0 (gn_preset cmDefault) gfZero).1 =
      Status.tg_unrecognized_command
  ∧ (gc_gcode_parser_top envOK cmDefault [70, 49, 48, 48, 71, 53]).1 = Status.tg_ok
  ∧ (gc_gcode_parser_top envOK cmDefault [70, 49, 48, 48, 71, 53]).2.1 =
      [CMCall.set_absolute_override false, CMCall.set_feed_rate (CDouble.mk 100 0)] := by
  decide

/-- C2.  The claim says a block that sets units (G20/G21) and also commands
a motion still performs the motion.  On the block G20G1X1F10 the execute
routine returns unconditionally right after cm_set_inches_mode, so the
trace ends there and cm_straight_feed is never called, although the parsed
model holds next_action MOTION with motion mode STRAIGHT_FEED and its
flags set. -/
theorem C2_units_change_skips_rest_of_block :
    (gc_gcode_parser_top envOK cmDefault [71, 50, 48, 71, 49, 88, 49, 70, 49, 48]).2.1 =
      [CMCall.set_absolute_override false, CMCall.set_feed_rate (CDouble.mk 10 0),
       CMCall.set_inches_mode true]
  ∧ (gc_gcode_parser_top envOK cmDefault [71, 50, 48, 71, 49, 88, 49, 70, 49, 48]).2.2 =
      Option.some
        ((_gc_parse_gcode_block envOK cmDefault [71, 50, 48, 71, 49, 88, 49, 70, 49, 48]).2.2.1,
         (_gc_parse_gcode_block envOK cmDefault [71, 50, 48, 71, 49, 88, 49, 70, 49, 48]).2.2.2)
  ∧ (_gc_parse_gcode_block envOK cmDefault
      [71, 50, 48, 71, 49, 88, 49, 70, 49, 48]).2.2.1.next_action = NextAction.motion
  ∧ (_gc_parse_gcode_block envOK cmDefault
      [71, 50, 48, 71, 49, 88, 49, 70, 49, 48]).2.2.1.motion_mode = MotionMode.straight_feed
  ∧ (_gc_parse_gcode_block envOK cmDefault
      [71, 50, 48, 71, 49, 88, 49, 70, 49, 48]).2.2.2.motion_mode = true := by
  decide

/-- C3.  The claim says G61.1 sets the next-block path control to
EXACT_STOP, G61 to EXACT_PATH and G64 to CONTINUOUS.  The plain G61 and
G64 parts hold, but on G61.1 the fractional check compares
(uint8_t)fraction with 0, and the cast of the fraction 0.1 is 0, so the
EXACT_STOP branch never runs: G61.1 leaves the EXACT_PATH value written by
the case-61 branch (with the path-control flag set). -/
theorem C3_g611_yields_exact_path :
    ((parseLoop [71, 54, 49, 46, 49] 6 0 (gn_preset cmDefault) gfZero).2.1.path_control =
        PathControl.exact_path
      ∧ (parseLoop [71, 54, 49, 46, 49] 6 0 (gn_preset cmDefault) gfZero).2.2.path_control = true
      ∧ (parseLoop [71, 54, 49, 46, 49] 6 0 (gn_preset cmDefault) gfZero).2.1.path_control ≠
        PathControl.exact_stop)
  ∧ (parseLoop [71, 54, 49] 4 0 (gn_preset cmDefault) gfZero).2.1.path_control =
      PathControl.exact_path
  ∧ (parseLoop [71, 54, 52] 4 0 (gn_preset cmDefault) gfZero).2.1.path_control =
      PathControl.continuous := by
  decide

/-- C4.  The claim says G92.1 zeroes the target value of every axis in the
next-block model and sets every axis target presence flag, besides setting
next_action to OFFSET_COORDINATES.  In the code the zeroing is guarded by
(uint8_t)fraction != 0, which is always false, so with the machine in
absolute mode at position 7 on every axis the block G92.1 leaves every
target presence flag unset, the target fill-in then loads the current
position 7 (not zero) into every axis, and cm_set_origin_offsets receives
those positions. -/
theorem C4_g921_does_not_zero_targets :
    (gc_gcode_parser_top envOK cmAbs7 [71, 57, 50, 46, 49]).2.2 =
      Option.some
        ((_gc_parse_gcode_block envOK cmAbs7 [71, 57, 50, 46, 49]).2.2.1,
         (_gc_parse_gcode_block envOK cmAbs7 [71, 57, 50, 46, 49]).2.2.2)
  ∧ (_gc_parse_gcode_block envOK cmAbs7 [71, 57, 50, 46, 49]).2.2.1.next_action =
      NextAction.offset_coordinates
  ∧ (_gc_parse_gcode_block envOK cmAbs7 [71, 57, 50, 46, 49]).2.2.1.target =
      (fun _ => CDouble.mk 7 0)
  ∧ (_gc_parse_gcode_block envOK cmAbs7 [71, 57, 50, 46, 49]).2.2.2.target =
      (fun _ => false)
  ∧ (gc_gcode_parser_top envOK cmAbs7 [71, 57, 50, 46, 49]).2.1 =
      [CMCall.set_absolute_override false,
       CMCall.set_origin_offsets (fun _ => CDouble.mk 7 0)] := by
  decide

/-- C5 counterexample.  The claim says normalization retains the percent
character; on the line G%1 the percent (code 37) is dropped and the
normalized command is G1. -/
theorem C5_percent_is_dropped :
    (_gc_normalize_gcode_block [71, 37, 49]).1 = [71, 49]
  ∧ 37 ∉ (_gc_normalize_gcode_block [71, 37, 49]).1 := by
  decide

/-- C5 (amended).  Character-by-character behavior of the normalization
loop over the ASCII range: NUL stops the loop, an opening parenthesis
(code 40) ends the command and starts the comment, and every other
character below 128 is retained (after uppercasing) exactly when
retainedChar holds of its uppercased form - digits, uppercase letters, and
the punctuation set including ampersand 38 and backslash 92 but NOT the
percent character 37, which is dropped along with whitespace, DEL, the
control characters and the rest of the discard set. -/
theorem C5_normalization_retained_characters :
    ∀ c : Nat, c < 128 →
      normStep c =
        (if c = 0 ∨ c = 40 then Option.none
         else if retainedChar (toupperC c) then Option.some (Option.some (toupperC c))
         else Option.some Option.none) := by
  decide

/-- Witness for C5: the amended characterization applied at the percent
character 37, which normalization drops. -/
theorem C5_normalization_retained_characters_witness :
    (37 : Nat) < 128 ∧
      normStep 37 =
        (if (37 : Nat) = 0 ∨ (37 : Nat) = 40 then Option.none
         else if retainedChar (toupperC 37) then Option.some (Option.some (toupperC 37))
         else Option.some Option.none) :=
  ⟨by decide, C5_normalization_retained_characters 37 (by decide)⟩

/-- C6 counterexample.  The lines slash and space-slash differ only by an
inserted space, yet the first is deleted as a block-delete (TG_NOOP,
nothing touched) while the second survives normalization as a slash
command and the parser returns TG_OK after running the (empty) execute
routine. -/
theorem C6_leading_whitespace_changes_status :
    stripFold [32, 47] = stripFold [47]
  ∧ (gc_gcode_parser_top envOK cmDefault [47]).1 = Status.tg_noop
  ∧ (gc_gcode_parser_top envOK cmDefault [32, 47]).1 = Status.tg_ok
  ∧ (gc_gcode_parser_top envOK cmDefault [47]).1 ≠ (gc_gcode_parser_top envOK cmDefault [32, 47]).1 := by
  decide

/-- C6 (amended).  For every pair of input lines that differ only in letter
case and in inserted or removed spaces and tabs (their case-folded,
whitespace-stripped forms coincide) and whose raw first characters are
neither the block-delete slash 47 nor the status-report question mark 63,
parsing produces the same status and the same next-block model contents
(the same (gn, gf) pair, or ignored in both cases), in any
canonical-machine state and environment.  The cm_message call made for an
MSG comment is NOT invariant - it forwards the raw comment text, so its
presence and payload can differ between the two lines - which is why the
invariance is stated of the status and the model, as in the claim, and not
of the call trace. -/
theorem C6_whitespace_case_invariance (env : CMCall → Status) (cm : CMState)
    (a b : List Nat)
    (ha47 : a.head? ≠ some 47) (ha63 : a.head? ≠ some 63)
    (hb47 : b.head? ≠ some 47) (hb63 : b.head? ≠ some 63)
    (hab : stripFold a = stripFold b) :
    (gc_gcode_parser_top env cm a).1 = (gc_gcode_parser_top env cm b).1
  ∧ (gc_gcode_parser_top env cm a).2.2 = (gc_gcode_parser_top env cm b).2.2 := by
  have hn : (_gc_normalize_gcode_block a).1 = (_gc_normalize_gcode_block b).1 := by
    rw [normalize_fst_eq_loop a ha47 ha63, normalize_fst_eq_loop b hb47 hb63,
        ← normalizeLoop_fst_stripFold a, ← normalizeLoop_fst_stripFold b, hab]
  by_cases he : (_gc_normalize_gcode_block b).1 = []
  · have hea : (_gc_normalize_gcode_block a).1 = [] := by rw [hn, he]
    constructor <;> simp [gc_gcode_parser_top, hea, he]
  · have hea : ¬(_gc_normalize_gcode_block a).1 = [] := by rw [hn]; exact he
    constructor <;> simp [gc_gcode_parser_top, hea, he, hn]

/-- Witness for C6: the lines g1 x2 (lowercase, with a space) and G1X2
parse to the same status and the same next-block model. -/
theorem C6_whitespace_case_invariance_witness :
    stripFold [103, 49, 32, 120, 50] = stripFold [71, 49, 88, 50]
  ∧ ((gc_gcode_parser_top envOK cmDefault [103, 49, 32, 120, 50]).1 =
        (gc_gcode_parser_top envOK cmDefault [71, 49, 88, 50]).1
     ∧ (gc_gcode_parser_top envOK cmDefault [103, 49, 32, 120, 50]).2.2 =
        (gc_gcode_parser_top envOK cmDefault [71, 49, 88, 50]).2.2) :=
  ⟨by decide,
   C6_whitespace_case_invariance envOK cmDefault [103, 49, 32, 120, 50] [71, 49, 88, 50]
     (by decide) (by decide) (by decide) (by decide) (by decide)⟩
